import Mathlib

/-!
Shallow embedding of the `clockwork` temporal value model
(`src/clockwork/timestamp.py`, `month_end.py`, `quarter_end.py`)
together with theorems settling the frozen claims about it.

Conventions of the embedding:
* Python `datetime.datetime` is the structure `DateTime` below (naive local
  time, fields year/month/day/hour/minute/second/microsecond as integers).
* Machine integers are `Int`/`Nat` (Python integers are unbounded anyway).
* Python exceptions are `Except Err _`; each raise site maps to an `Err` tag.
* The pluggable holiday calendar (`holidays.UnitedStates()` in the source) is
  a parameter `H : Int × Int × Int → Bool` keyed by the (year, month, day)
  triple, the information content of the `ymd` string key used by
  `Timestamp.holiday_name`.
* `constants.MONTHS_IN_YEAR` is not under `src/`; modelled from the spec
  ("each within [1,12]", `_get_prior_month` hard-codes 12) as the literal 12.
-/

namespace Clockwork

/-- Error taxonomy: one tag per distinct raise site family in the source. -/
inductive Err where
  | parse         -- unresolvable construction input (ValueError from parsing)
  | range         -- month/quarter out of domain (`_validate_month`, quarter check)
  | config        -- invalid scheme (`set_scheme` ValueError)
  | alignment     -- strict period-end conversion off boundary
  | notSupported  -- NotImplementedError (non-strict quarter-end coercion)
  | invariant     -- `validate_instance` failure
  | typeErr       -- TypeError (`_try_int`, validate_value)
  | fuel          -- out of fuel in the embedding (unreachable on real runs)
deriving DecidableEq

/-- Embeds `calendar.isleap`: leap years every 4 years except century years not
divisible by 400. -/
def isLeap (y : Int) : Bool :=
  y % 4 == 0 && (y % 100 != 0 || y % 400 == 0)

/-- Embeds `Timestamp.days_in_month` / `calendar.monthrange(year, month)[1]`:
number of days in the given month. Only meaningful for `month` in [1,12]. -/
def days_in_month (year month : Int) : Int :=
  if month == 2 then (if isLeap year then 29 else 28)
  else if month == 4 || month == 6 || month == 9 || month == 11 then 30
  else 31

/-- Days in all years strictly before year `y` (proleptic Gregorian,
`datetime.date.toordinal` auxiliary; meaningful for `y ≥ 1`). -/
def daysBeforeYear (y : Int) : Int :=
  365 * (y - 1) + (y - 1) / 4 - (y - 1) / 100 + (y - 1) / 400

/-- Days in the months of year `y` strictly before month `m`. -/
def daysBeforeMonth (y : Int) (m : Int) : Int :=
  go m.toNat
where
  go : Nat → Int
    | 0 => 0
    | 1 => 0
    | k + 2 => go (k + 1) + days_in_month y ((k : Int) + 1)

/-- Embeds `datetime.date(y, m, d).toordinal()`: day 0001-01-01 has ordinal 1. -/
def toOrdinal (y m d : Int) : Int :=
  daysBeforeYear y + daysBeforeMonth y m + d

/-- Embeds `datetime.weekday()`: Monday = 0 … Sunday = 6 (0001-01-01 is a Monday). -/
def weekdayIndex (y m d : Int) : Int :=
  (toOrdinal y m d - 1) % 7

/-- Shallow embedding of a naive `datetime.datetime` value. -/
structure DateTime where
  year : Int
  month : Int
  day : Int
  hour : Int
  minute : Int
  second : Int
  microsecond : Int
deriving DecidableEq

/-- A value representable by `datetime.datetime` (Python also caps the year
at 9999; that cap never matters here and is omitted). -/
def DateTime.Valid (t : DateTime) : Prop :=
  1 ≤ t.year ∧ 1 ≤ t.month ∧ t.month ≤ 12 ∧
  1 ≤ t.day ∧ t.day ≤ days_in_month t.year t.month ∧
  0 ≤ t.hour ∧ t.hour < 24 ∧ 0 ≤ t.minute ∧ t.minute < 60 ∧
  0 ≤ t.second ∧ t.second < 60 ∧
  0 ≤ t.microsecond ∧ t.microsecond < 1000000

instance (t : DateTime) : Decidable t.Valid := by
  unfold DateTime.Valid; infer_instance

/-- Build a midnight datetime, as `datetime.datetime(year, month, day)`. -/
def mkDate (y m d : Int) : DateTime := ⟨y, m, d, 0, 0, 0, 0⟩

/-- Embeds `Timestamp._normalize`: keep the date, zero the time-of-day. -/
def normalize (t : DateTime) : DateTime := mkDate t.year t.month t.day

/-- Embeds `Timestamp.is_normalized`: the time component is 00:00:00.000000. -/
def is_normalized (t : DateTime) : Bool :=
  t.hour == 0 && t.minute == 0 && t.second == 0 && t.microsecond == 0

/-- Successor day (what `+ datetime.timedelta(days=1)` does to the date part
of a valid naive datetime); the time-of-day is untouched. -/
def nextDay (t : DateTime) : DateTime :=
  if t.day < days_in_month t.year t.month then { t with day := t.day + 1 }
  else if t.month < 12 then { t with month := t.month + 1, day := 1 }
  else { t with year := t.year + 1, month := 1, day := 1 }

/-- Predecessor day (`- datetime.timedelta(days=1)` on the date part). -/
def prevDay (t : DateTime) : DateTime :=
  if 1 < t.day then { t with day := t.day - 1 }
  else if 1 < t.month then
    { t with month := t.month - 1,
             day := days_in_month t.year (t.month - 1) }
  else { t with year := t.year - 1, month := 12, day := 31 }

/-- Embeds `t + datetime.timedelta(days=k)` for signed `k`. -/
def stepDays (k : Int) (t : DateTime) : DateTime :=
  match k with
  | Int.ofNat n => nextDay^[n] t
  | Int.negSucc n => prevDay^[n + 1] t

/-- The holiday-membership source: `Timestamp.holiday_name` keys the external
calendar by the `ymd` string, i.e. by the (year, month, day) triple. -/
abbrev HolidaySet := Int × Int × Int → Bool

/-- Embeds `Timestamp.is_weekend`: `weekday_name in {'Saturday','Sunday'}`; the
weekday name is the `%A` rendering of `weekday_index`, so Saturday/Sunday are
exactly indices 5 and 6. -/
def is_weekend (t : DateTime) : Bool :=
  weekdayIndex t.year t.month t.day == 5 || weekdayIndex t.year t.month t.day == 6

/-- Embeds `Timestamp.is_holiday`: membership in the holiday calendar keyed by ymd. -/
def is_holiday (H : HolidaySet) (t : DateTime) : Bool :=
  H (t.year, t.month, t.day)

/-- Embeds `Timestamp.is_non_business_day`. -/
def is_non_business_day (H : HolidaySet) (t : DateTime) : Bool :=
  is_weekend t || is_holiday H t

/-- Embeds `Timestamp.is_business_day`. -/
def is_business_day (H : HolidaySet) (t : DateTime) : Bool :=
  !(is_non_business_day H t)

/-- Python `datetime.datetime` strict comparison: lexicographic on
(year, month, day, hour, minute, second, microsecond). -/
def dtLt (a b : DateTime) : Bool :=
  if a.year != b.year then a.year < b.year
  else if a.month != b.month then a.month < b.month
  else if a.day != b.day then a.day < b.day
  else if a.hour != b.hour then a.hour < b.hour
  else if a.minute != b.minute then a.minute < b.minute
  else if a.second != b.second then a.second < b.second
  else a.microsecond < b.microsecond

/-- Python `datetime.datetime` non-strict comparison. -/
def dtLe (a b : DateTime) : Bool :=
  dtLt a b || decide (a = b)

/-- Embeds `Timestamp.business_hours` class attribute: `(8, 17)`, 8am–5pm. -/
def business_hours : Int × Int := (8, 17)

/-- Embeds `Timestamp.is_business_hours`, with the business-hours window `bh` and the
holiday source as explicit parameters: not a business day → False, else
`datetime(y,m,d,start) <= self.dt <= datetime(y,m,d,stop)`. -/
def is_business_hours (bh : Int × Int) (H : HolidaySet) (t : DateTime) : Bool :=
  if !(is_business_day H t) then false
  else
    let start : DateTime := ⟨t.year, t.month, t.day, bh.1, 0, 0, 0⟩
    let stop : DateTime := ⟨t.year, t.month, t.day, bh.2, 0, 0, 0⟩
    dtLe start t && dtLe t stop

/-- Time-of-day in microseconds since midnight. -/
def timeOfDay (t : DateTime) : Int :=
  ((t.hour * 60 + t.minute) * 60 + t.second) * 1000000 + t.microsecond

/-- One iteration step of the `while counter < abs(biz_days)` loop in
`Timestamp.shift`: step one calendar day in direction `dir`, incrementing
the counter only when the landing day is a business day. `fuel` bounds the
number of loop iterations (the Python loop is unbounded; it terminates for
any holiday calendar that leaves some non-weekend day free). Returns `none`
when the fuel runs out before the loop condition turns false. -/
def bizLoop (H : HolidaySet) (dir : Int) (target : Nat) :
    Nat → Nat → DateTime → Option DateTime
  | 0, counter, t => if counter < target then none else some t
  | fuel + 1, counter, t =>
      if counter < target then
        let t' := stepDays dir t
        bizLoop H dir target fuel
          (if is_business_day H t' then counter + 1 else counter) t'
      else some t

/-- Embeds `Timestamp.shift(biz_days=N)` (no other delta kwargs): start from a copy
of `self`, then run the counting loop with `delta = int(np.sign(N))`. -/
def shift_biz_days (H : HolidaySet) (fuel : Nat) (N : Int) (t : DateTime) :
    Option DateTime :=
  bizLoop H (Int.sign N) N.natAbs fuel 0 t

/-- Specification-side relation: `BizReach H dir n t r` holds when stepping
one calendar day at a time in direction `dir` from `t`, counting exactly the
landings that are business days, reaches `r` at the moment the `n`-th
business-day landing is counted (`n = 0` means no step is taken at all). -/
inductive BizReach (H : HolidaySet) (dir : Int) : Nat → DateTime → DateTime → Prop
  | done (t : DateTime) : BizReach H dir 0 t t
  | skip {n : Nat} {t r : DateTime} (hn : 0 < n)
      (hb : is_business_day H (stepDays dir t) = false)
      (h : BizReach H dir n (stepDays dir t) r) : BizReach H dir n t r
  | count {n : Nat} {t r : DateTime}
      (hb : is_business_day H (stepDays dir t) = true)
      (h : BizReach H dir n (stepDays dir t) r) : BizReach H dir (n + 1) t r

/-- Modelled from the spec: `constants.MONTHS_IN_YEAR` (the `constants`
module is not under `src/`); the spec fixes months to the range [1,12] and
`Timestamp._get_prior_month` hard-codes the December wrap at 12. -/
def MONTHS_IN_YEAR : Int := 12

/-- Embeds `Timestamp._total_months`: `MONTHS_IN_YEAR * years + months`. -/
def total_months (years months : Int) : Int :=
  MONTHS_IN_YEAR * years + months

/-- Embeds `Timestamp._validate_month`: month must lie in [1, MONTHS_IN_YEAR]. -/
def validate_month (month : Int) : Except Err Unit :=
  if 1 ≤ month ∧ month ≤ MONTHS_IN_YEAR then .ok () else .error .range

/-- Embeds `Timestamp._get_prior_month`: validate, then decrement with December
wrap. Python divmod and this embedding agree on all validated inputs. -/
def get_prior_month (year month : Int) : Except Err (Int × Int) :=
  match validate_month month with
  | .error e => .error e
  | .ok _ => if month = 1 then .ok (year - 1, 12) else .ok (year, month - 1)

/-- Embeds `MonthEnd._offset`: `divmod(total_months(year, month + offset), 12)`,
mapping a zero remainder to December of the previous quotient year. Python
`divmod` with positive divisor is floor division with non-negative
remainder, i.e. `Int.ediv`/`Int.emod`. -/
def me_offset (year month offset : Int) : Int × Int :=
  let t := total_months year (month + offset)
  let q := t / MONTHS_IN_YEAR
  let r := t % MONTHS_IN_YEAR
  if r = 0 then (q - 1, MONTHS_IN_YEAR) else (q, r)

/-- The year–month pair of a month-end / quarter-end value. The day and
time-of-day of such a value are forced functions of this pair (day =
`days_in_month`, time = midnight). -/
abbrev YM := Int × Int

/-- Embeds `QuarterEnd.scheme` default class attribute. -/
def defaultScheme : List Int := [3, 6, 9, 12]

/-- Embeds `QuarterEnd._backtrack_to_scheme`: step one month back at a time (each
step re-validating the month) until a scheme month is reached. `fuel` bounds
the Python `while` loop, which needs at most 11 iterations for any scheme
that intersects [1,12]. -/
def backtrack_to_scheme (scheme : List Int) :
    Nat → Int → Int → Except Err (Int × Int)
  | 0, _, _ => .error .fuel
  | fuel + 1, year, month =>
      if month ∈ scheme then .ok (year, month)
      else
        match get_prior_month year month with
        | .error e => .error e
        | .ok (y, m) => backtrack_to_scheme scheme fuel y m

/-- Embeds `QuarterEnd._offset`: backtrack the candidate month to the scheme first,
then apply `MonthEnd._offset`. -/
def qe_offset (scheme : List Int) (year month offset : Int) :
    Except Err (Int × Int) :=
  match backtrack_to_scheme scheme 24 year month with
  | .error e => .error e
  | .ok ym => .ok (me_offset ym.1 ym.2 offset)

/-- Embeds `MonthEnd.__init__` with explicit `year`/`month` and integer `offset`
(the `_increment = 1` subclass): validate the month, apply `_offset`, force
the day to `days_in_month`; `validate_instance` then always passes. Returns
the year–month pair of the constructed value. -/
def mkMonthEnd (year month : Int) (offset : Int := 0) : Except Err YM :=
  match validate_month month with
  | .error e => .error e
  | .ok _ => .ok (me_offset year month offset)

/-- Embeds `MonthEnd.__init__` with no `arg`/`year`/`month` (the default-anchor
branch), given the current instant's year and month: anchor at
`(now.year, now.month - 1)` and apply `_offset(…, offset * 1)`. -/
def monthEndFromOffset (nowY nowM : Int) (offset : Int) : YM :=
  me_offset nowY (nowM - 1) offset

/-- Embeds `MonthEnd.relative_offset` evaluated when the current instant has
year–month `(nowY, nowM)`: month-index distance from the zero-offset anchor,
divided by `_increment = 1` (the divmod remainder is always 0 here). -/
def relative_offset (nowY nowM : Int) (E : YM) : Int :=
  total_months E.1 E.2 -
    total_months (monthEndFromOffset nowY nowM 0).1 (monthEndFromOffset nowY nowM 0).2

/-- Embeds `MonthEnd.offset(periods)`: rebuild from the live anchor at
`relative_offset + periods` (`self.__class__(offset=…)`). -/
def me_offset_method (nowY nowM : Int) (E : YM) (periods : Int) : YM :=
  monthEndFromOffset nowY nowM (relative_offset nowY nowM E + periods)

/-- Embeds `QuarterEnd.__init__` with no scalar/year/month/quarter, given the
current instant's year and month and the quarter offset `k`: the MonthEnd
default-anchor branch computes candidate `(now.year, now.month - 1)` and
calls `self._offset(…, offset = k * 3)`, which for QuarterEnd first
backtracks the candidate to the scheme; `_validate_instance` finally checks
that the resulting month is in the scheme. -/
def quarterEndDefault (scheme : List Int) (nowY nowM : Int) (k : Int) :
    Except Err YM :=
  match qe_offset scheme nowY (nowM - 1) (k * 3) with
  | .error e => .error e
  | .ok ym => if ym.2 ∈ scheme then .ok ym else .error .invariant


/-- Embeds `MonthEnd.relative_offset` as inherited by `QuarterEnd`
(`_increment = 3`), evaluated when the current instant has year–month
`(nowY, nowM)`: the zero-offset anchor `self.__class__(offset=0)` is
re-derived through the QuarterEnd default construction (which can itself
raise, e.g. in January), then `divmod(a - b, 3)` with Python floor
semantics; a non-zero remainder raises (the source's internal-consistency
ValueError, mapped to the invariant tag). -/
def qe_relative_offset (scheme : List Int) (nowY nowM : Int) (E : YM) :
    Except Err Int :=
  match quarterEndDefault scheme nowY nowM 0 with
  | .error e => .error e
  | .ok A =>
      let d := total_months E.1 E.2 - total_months A.1 A.2
      if d % 3 = 0 then .ok (d / 3) else .error .invariant

/-- Embeds `MonthEnd.offset(periods)` as inherited by `QuarterEnd`: rebuild
from the live anchor at `relative_offset + periods` via
`self.__class__(offset=…)`, i.e. the QuarterEnd default construction. -/
def qe_offset_method (scheme : List Int) (nowY nowM : Int) (E : YM)
    (periods : Int) : Except Err YM :=
  match qe_relative_offset scheme nowY nowM E with
  | .error e => .error e
  | .ok rel => quarterEndDefault scheme nowY nowM (rel + periods)

/-- The concrete class of a wrapped value: `Timestamp`, `MonthEnd` or
`QuarterEnd`. -/
inductive Variant where
  | base
  | monthEnd
  | quarterEnd
deriving DecidableEq

/-- A wrapped value: its concrete class and its underlying datetime. -/
structure CW where
  variant : Variant
  dt : DateTime
deriving DecidableEq

/-- Embeds `Timestamp._make_base`: always wraps in the base `Timestamp` class. -/
def make_base (t : DateTime) : CW := ⟨.base, t⟩

/-- Embeds `Timestamp._shift` (and the `__add__`/`__sub__`/`__iadd__`/`__isub__`
delta path, which ends in `self._make_base(func(self, delta))`): build the
delta, add it to `self.dt`, and wrap the result with `_make_base`. The delta
here is `datetime.timedelta(days=k)`; no subclass overrides `_shift` or
`_make_base`. -/
def shift_days (x : CW) (k : Int) : CW := make_base (stepDays k x.dt)

/-- Embeds `QuarterEnd.set_scheme`: validate (tuple of 4; consecutive differences
all 3; every element between 1 and `MONTHS_IN_YEAR` inclusive) and return
the new scheme; any failure raises and leaves the class attribute
untouched. -/
def set_scheme (value : List Int) : Except Err (List Int) :=
  if value.length ≠ 4 then .error .config
  else if !((value.zip value.tail).all fun p => p.2 - p.1 == 3) then .error .config
  else if !(value.all fun x => decide (1 ≤ x) && decide (x ≤ MONTHS_IN_YEAR)) then
    .error .config
  else .ok value

/-- Python string whitespace (the characters `str.strip()` removes). -/
def pyWhitespace (c : Char) : Bool :=
  c == ' ' || c == '\t' || c == '\n' || c == '\r' || c == '\x0B' || c == '\x0C'

/-- Embeds Python `str.strip()` on the character list of a string. -/
def stripChars (cs : List Char) : List Char :=
  ((cs.dropWhile pyWhitespace).reverse.dropWhile pyWhitespace).reverse

/-- Numeric value of a decimal digit character. -/
def digitVal (c : Char) : Int := (c.toNat : Int) - 48

/-- The `extract_year_qtr` inner function of `QuarterEnd.parse_label`:
strip and upcase, then try the anchored patterns `(\d{4})Q(\d)`, `(\d)Q(\d{2})`
(year = the current century digits concatenated with the two year digits,
numerically `(now.year // 100) * 100 + yy`), and `Q(\d)` (year = current
year), in that order. The three shapes have distinct lengths, so matching on
the character list is exact. ASCII digits only (the claims' inputs are
ASCII). -/
def extract_year_qtr (nowYear : Int) (x : String) : Option (Int × Int) :=
  match (stripChars x.data).map Char.toUpper with
  | [a, b, c, d, 'Q', e] =>
      if a.isDigit && b.isDigit && c.isDigit && d.isDigit && e.isDigit then
        some (((digitVal a * 10 + digitVal b) * 10 + digitVal c) * 10 + digitVal d,
              digitVal e)
      else none
  | [a, 'Q', b, c] =>
      if a.isDigit && b.isDigit && c.isDigit then
        some (nowYear / 100 * 100 + (digitVal b * 10 + digitVal c), digitVal a)
      else none
  | ['Q', a] =>
      if a.isDigit then some (nowYear, digitVal a) else none
  | _ => none

/-- Embeds `QuarterEnd.parse_label` on a string input, with the current year as a
parameter: `None` (no pattern matched) is `ok none`; a matched shape with a
quarter outside [1,4] raises. Non-string inputs, which Python also maps to
`None`, are outside this embedding's input type. -/
def parse_label (nowYear : Int) (x : String) : Except Err (Option (Int × Int)) :=
  match extract_year_qtr nowYear x with
  | none => .ok none
  | some (year, qtr) =>
      if 1 ≤ qtr ∧ qtr ≤ 4 then .ok (some (year, qtr)) else .error .range

/-- Embeds `QuarterEnd.__init__` with explicit `year` and `month` (plus quarter
offset): validate the month, run `QuarterEnd._offset` (backtrack, then
`_offset(…, offset * 3)`), then `_validate_instance` checks membership in
the scheme. -/
def mkQuarterEnd (scheme : List Int) (year month : Int) (offset : Int := 0) :
    Except Err YM :=
  match validate_month month with
  | .error e => .error e
  | .ok _ =>
      match qe_offset scheme year month (offset * 3) with
      | .error e => .error e
      | .ok ym => if ym.2 ∈ scheme then .ok ym else .error .invariant

/-- Embeds `QuarterEnd.__init__` with explicit `year` and `quarter`: the quarter is
translated to `scheme[quarter - 1]` and construction proceeds as with an
explicit month. -/
def mkQuarterEndYQ (scheme : List Int) (year qtr offset : Int) : Except Err YM :=
  mkQuarterEnd scheme year (scheme.getD (qtr - 1).toNat 0) offset

/-- The datetime of a month-end / quarter-end value: last day of the month
at midnight. -/
def ymToDate (p : YM) : DateTime := mkDate p.1 p.2 (days_in_month p.1 p.2)

/-- Python `str.title()` restricted to what the weekday lookup can see: the
map keys are single alphabetic words, for which `title()` upcases the first
character and downcases the rest; on every other input both versions fail
the lookup. -/
def titleize (s : String) : List Char :=
  match s.data with
  | [] => []
  | c :: rest => c.toUpper :: rest.map Char.toLower

/-- Embeds `Timestamp._get_weekday_map`: full weekday names Monday…Sunday mapped to
0…6, plus their 3-letter prefixes (keys as character lists). -/
def weekdayNames : List (List Char × Int) :=
  [("Monday".data, 0), ("Tuesday".data, 1), ("Wednesday".data, 2),
   ("Thursday".data, 3), ("Friday".data, 4), ("Saturday".data, 5),
   ("Sunday".data, 6),
   ("Mon".data, 0), ("Tue".data, 1), ("Wed".data, 2), ("Thu".data, 3),
   ("Fri".data, 4), ("Sat".data, 5), ("Sun".data, 6)]

/-- Embeds `Timestamp.get_weekday_index`: look up `weekday.title()` in the map. -/
def get_weekday_index (s : String) : Option Int :=
  weekdayNames.lookup (titleize s)

/-- The `try_weekday` inner function of `Timestamp._to_datetime`: if the
string names a weekday, land on that weekday of the current Monday-started
week shifted by `weeks`, normalized to midnight. -/
def try_weekday (now : DateTime) (arg : String) (weeks : Int) : Option DateTime :=
  match get_weekday_index arg with
  | none => none
  | some w =>
      let days := w - weekdayIndex now.year now.month now.day
      some (normalize (stepDays (days + 7 * weeks) now))

/-- The `try_quarter_end` inner function of `Timestamp._to_datetime`: parse
the label (a raised RangeError propagates), and on a match construct
`QuarterEnd(year=…, quarter=…, offset=…)` and return its datetime. -/
def try_quarter_end (scheme : List Int) (nowYear : Int) (arg : String)
    (offset : Int) : Except Err (Option DateTime) :=
  match parse_label nowYear arg with
  | .error e => .error e
  | .ok none => .ok none
  | .ok (some (year, qtr)) =>
      match mkQuarterEndYQ scheme year qtr offset with
      | .error e => .error e
      | .ok p => .ok (some (ymToDate p))

/-- The string branch of `Timestamp._to_datetime`. The two external parsers
are parameters: `strptime arg f` embeds `datetime.datetime.strptime(arg,
format)` and `duparse arg` embeds `dateutil.parser.parse(arg)` (both are
library code outside this repository). The branch structure is the
source's: an explicit format short-circuits everything; otherwise weekday,
then quarter label, then the general parser. -/
def to_datetime_str (strptime : String → String → Except Err DateTime)
    (duparse : String → Except Err DateTime)
    (scheme : List Int) (now : DateTime)
    (arg : String) (format : Option String) (offset : Int) :
    Except Err DateTime :=
  match format with
  | some f => strptime arg f
  | none =>
      match try_weekday now arg offset with
      | some dt => .ok dt
      | none =>
          match try_quarter_end scheme now.year arg offset with
          | .error e => .error e
          | .ok (some dt) => .ok dt
          | .ok none => duparse arg

/-- Embeds `Timestamp.is_last_day_of_month`. -/
def is_last_day_of_month (t : DateTime) : Bool :=
  t.day == days_in_month t.year t.month

/-- Embeds `Timestamp.is_month_end`: alias for `is_last_day_of_month`. -/
def is_month_end (t : DateTime) : Bool := is_last_day_of_month t

/-- Embeds `Timestamp.is_quarter_end`: month end and month in the active scheme. -/
def is_quarter_end (scheme : List Int) (t : DateTime) : Bool :=
  is_month_end t && decide (t.month ∈ scheme)

/-- Embeds `Timestamp.to_month_end(strict)` via the `to_period_end` decorator:
`strict` off-boundary raises; otherwise `MonthEnd(year=self.year,
month=self.month)`. -/
def to_month_end (strict : Bool) (t : DateTime) : Except Err YM :=
  if strict && !(is_month_end t) then .error .alignment
  else mkMonthEnd t.year t.month

/-- Embeds `Timestamp.to_quarter_end(strict)` via the `to_period_end` decorator:
the non-strict quarter case raises NotImplementedError before anything
else; strict off-boundary raises; otherwise `QuarterEnd(year=self.year,
month=self.month)`. -/
def to_quarter_end (scheme : List Int) (strict : Bool) (t : DateTime) :
    Except Err YM :=
  if !strict then .error .notSupported
  else if !(is_quarter_end scheme t) then .error .alignment
  else mkQuarterEnd scheme t.year t.month

/-- Holiday source containing exactly one holiday, New Year's Day 2030 (a
Tuesday). -/
def holidayNewYear2030 : HolidaySet := fun p => p == (2030, 1, 1)

/-- The five consecutive days 2029-12-31 … 2030-01-04 (Monday to Friday):
the window walked by `shift(biz_days=+3)` from 2029-12-31. -/
def c4Window : List DateTime :=
  [mkDate 2029 12 31, mkDate 2030 1 1, mkDate 2030 1 2,
   mkDate 2030 1 3, mkDate 2030 1 4]

deriving instance DecidableEq for Except

/-! ## Helper lemmas -/

theorem me_offset_total (y m off : Int) :
    total_months (me_offset y m off).1 (me_offset y m off).2 =
      total_months y (m + off) := by
  have hd := Int.ediv_add_emod (12 * y + (m + off)) 12
  have hn := Int.emod_nonneg (12 * y + (m + off)) (by norm_num : (12 : Int) ≠ 0)
  have hp := Int.emod_lt_of_pos (12 * y + (m + off)) (by norm_num : (0 : Int) < 12)
  simp only [me_offset, total_months, MONTHS_IN_YEAR]
  split <;> rename_i h <;> dsimp only <;> omega

theorem me_offset_zero (y m : Int) (h1 : 1 ≤ m) (h2 : m ≤ 12) :
    me_offset y m 0 = (y, m) := by
  have hd := Int.ediv_add_emod (12 * y + (m + 0)) 12
  have hn := Int.emod_nonneg (12 * y + (m + 0)) (by norm_num : (12 : Int) ≠ 0)
  have hp := Int.emod_lt_of_pos (12 * y + (m + 0)) (by norm_num : (0 : Int) < 12)
  simp only [me_offset, total_months, MONTHS_IN_YEAR]
  split <;> rename_i h <;> refine Prod.ext ?_ ?_ <;> dsimp only <;> omega

theorem relative_offset_anchor (nowY nowM K : Int) :
    relative_offset nowY nowM (monthEndFromOffset nowY nowM K) = K := by
  simp only [relative_offset, monthEndFromOffset]
  rw [me_offset_total, me_offset_total]
  simp only [total_months]
  omega

theorem backtrack_noop (scheme : List Int) (fuel : Nat) (y m : Int)
    (h : m ∈ scheme) :
    backtrack_to_scheme scheme (fuel + 1) y m = .ok (y, m) := by
  simp [backtrack_to_scheme, h]

theorem zip_all_diff3_iff_chain :
    ∀ v : List Int,
      ((v.zip v.tail).all fun p => p.2 - p.1 == 3) = true ↔
        List.Chain' (fun a b => b = a + 3) v
  | [] => by simp
  | [a] => by simp
  | a :: b :: l => by
      have ih := zip_all_diff3_iff_chain (b :: l)
      simp only [List.tail_cons, List.zip_cons_cons, List.all_cons,
        Bool.and_eq_true, beq_iff_eq, List.chain'_cons] at *
      constructor
      · rintro ⟨h1, h2⟩; exact ⟨by omega, ih.mp h2⟩
      · rintro ⟨h1, h2⟩; exact ⟨by omega, ih.mpr h2⟩

theorem backtrack_mem (scheme : List Int) :
    ∀ fuel y m y2 m2, backtrack_to_scheme scheme fuel y m = .ok (y2, m2) →
      m2 ∈ scheme := by
  intro fuel
  induction fuel with
  | zero =>
    intro y m y2 m2 h
    simp [backtrack_to_scheme] at h
  | succ fuel ih =>
    intro y m y2 m2 h
    simp only [backtrack_to_scheme] at h
    split at h
    · rename_i hm
      injection h with h2
      obtain ⟨rfl, rfl⟩ := Prod.mk.injEq .. |>.mp h2
      exact hm
    · split at h
      · cases h
      · rename_i y3 m3 hp
        exact ih y3 m3 y2 m2 h

theorem me_offset_month_bounds (y m off : Int) :
    1 ≤ (me_offset y m off).2 ∧ (me_offset y m off).2 ≤ 12 ∧
      ((me_offset y m off).2 - (m + off)) % 12 = 0 := by
  simp only [me_offset, total_months, MONTHS_IN_YEAR]
  split <;> rename_i h <;> dsimp only <;> omega

theorem set_scheme_mem_closed (scheme : List Int)
    (hs : set_scheme scheme = .ok scheme) (m r : Int) (hm : m ∈ scheme)
    (hr1 : 1 ≤ r) (hr2 : r ≤ 12) (hmod : (r - m) % 3 = 0) : r ∈ scheme := by
  simp only [set_scheme] at hs
  split_ifs at hs with h1 h2 h3
  have hl : scheme.length = 4 := by omega
  simp only [Bool.not_eq_true', Bool.not_eq_false] at h2 h3
  rcases scheme with - | ⟨a, - | ⟨b, - | ⟨c, - | ⟨d, - | ⟨e, tl⟩⟩⟩⟩⟩ <;>
    simp only [List.length] at hl <;> try omega
  simp only [List.tail_cons, List.zip_cons_cons, List.zip_nil_right,
    List.all_cons, List.all_nil, Bool.and_eq_true, beq_iff_eq,
    decide_eq_true_eq, and_true, MONTHS_IN_YEAR] at h2 h3
  simp only [List.mem_cons, List.not_mem_nil, or_false] at hm ⊢
  omega

theorem quarterEndDefault_ok_total (scheme : List Int) (nowY nowM K : Int)
    (hs : set_scheme scheme = .ok scheme) (A : YM)
    (hA : quarterEndDefault scheme nowY nowM 0 = .ok A) :
    ∃ R : YM, quarterEndDefault scheme nowY nowM K = .ok R ∧
      total_months R.1 R.2 = total_months A.1 A.2 + 3 * K ∧ R.2 ∈ scheme := by
  cases hbt : backtrack_to_scheme scheme 24 nowY (nowM - 1) with
  | error e =>
      have hq : qe_offset scheme nowY (nowM - 1) (0 * 3) = .error e := by
        simp only [qe_offset, hbt]
      simp only [quarterEndDefault, hq] at hA
      cases hA
  | ok p =>
      have hm2 : p.2 ∈ scheme := backtrack_mem scheme 24 nowY (nowM - 1) p.1 p.2 hbt
      have h0 : qe_offset scheme nowY (nowM - 1) (0 * 3) =
          .ok (me_offset p.1 p.2 (0 * 3)) := by
        simp only [qe_offset, hbt]
      have hK : qe_offset scheme nowY (nowM - 1) (K * 3) =
          .ok (me_offset p.1 p.2 (K * 3)) := by
        simp only [qe_offset, hbt]
      simp only [quarterEndDefault, h0] at hA
      have hmemK : (me_offset p.1 p.2 (K * 3)).2 ∈ scheme := by
        obtain ⟨c1, c2, c3⟩ := me_offset_month_bounds p.1 p.2 (K * 3)
        exact set_scheme_mem_closed scheme hs p.2 _ hm2 c1 c2 (by omega)
      have hAeq : A = me_offset p.1 p.2 (0 * 3) := by
        split at hA
        · injection hA with h2
          exact h2.symm
        · cases hA
      refine ⟨me_offset p.1 p.2 (K * 3), ?_, ?_, hmemK⟩
      · simp only [quarterEndDefault, hK, hmemK, if_pos]
      · rw [hAeq, me_offset_total, me_offset_total, total_months, total_months]
        omega

/-! ## Claims -/

/-- C1: the claim asserts that the default-anchor `QuarterEnd` construction
(no scalar/year/month/quarter) succeeds in every calendar month, January
included. In January the candidate month is `now.month - 1 = 0`, and the
backtracking loop's `_get_prior_month` validates it against [1,12] and
raises; the construction therefore fails in January, while in every other
month it behaves as the claim describes (shown here for February, where it
yields December of the prior year, i.e. Q4). -/
theorem C1_quarter_default_anchor :
    quarterEndDefault defaultScheme 2026 1 0 = Except.error Err.range ∧
    quarterEndDefault defaultScheme 2026 2 0 = Except.ok (2025, 12) ∧
    quarterEndDefault defaultScheme 2026 5 (-1) = Except.ok (2025, 12) := by
  refine ⟨rfl, rfl, rfl⟩

/-- C2 counterexample: shifting the quarter-end value 2025-06-30 (variant
`monthEnd` would behave identically) by a one-day delta returns a value of
the base variant, not of the receiver's concrete variant as the claim
states. -/
theorem C2_counterexample :
    (shift_days ⟨Variant.quarterEnd, mkDate 2025 6 30⟩ 1).variant ≠
        Variant.quarterEnd ∧
    (shift_days ⟨Variant.monthEnd, mkDate 2025 6 30⟩ 1).variant ≠
        Variant.monthEnd ∧
    shift_days ⟨Variant.quarterEnd, mkDate 2025 6 30⟩ 1 =
      ⟨Variant.base, mkDate 2025 7 1⟩ := by
  refine ⟨by decide, by decide, by decide⟩

/-- C2 (amended): adding or subtracting a duration (the `__add__`/`__sub__`/
`_shift` path) always returns a value of the base `Timestamp` variant —
`_make_base` wraps in the base class and no subclass overrides it — with the
shifted datetime; it does not return the receiver's concrete variant and no
per-variant re-validation occurs. -/
theorem C2_shift_returns_base (x : CW) (k : Int) :
    (shift_days x k).variant = Variant.base ∧
    (shift_days x k).dt = stepDays k x.dt :=
  ⟨rfl, rfl⟩

/-- C5: `parse_label` behaviour on the spec's example labels, for an
arbitrary current year `Y`: explicit-year labels, quarter-first labels with
the century inferred from the current year, quarter-only labels defaulting
to the current year, a RangeError once a shape matched with a quarter digit
outside [1,4], `none` on a non-matching string, case-insensitivity, and
whole-string matching only. -/
theorem C5_parse_label (Y : Int) :
    parse_label Y "2025Q1" = .ok (some (2025, 1)) ∧
    parse_label Y "1Q25" = .ok (some (Y / 100 * 100 + 25, 1)) ∧
    parse_label 2025 "1Q25" = .ok (some (2025, 1)) ∧
    parse_label Y "Q4" = .ok (some (Y, 4)) ∧
    parse_label Y "2025Q5" = Except.error Err.range ∧
    parse_label Y "abc" = .ok none ∧
    parse_label Y "2025q1" = .ok (some (2025, 1)) ∧
    parse_label Y "Q0" = Except.error Err.range ∧
    parse_label Y "x2025Q1" = .ok none ∧
    parse_label Y "2025Q11" = .ok none ∧
    (∀ x, extract_year_qtr Y x = none → parse_label Y x = .ok none) ∧
    (∀ x y q, extract_year_qtr Y x = some (y, q) → ¬(1 ≤ q ∧ q ≤ 4) →
      parse_label Y x = Except.error Err.range) := by
  refine ⟨rfl, rfl, rfl, rfl, rfl, rfl, rfl, rfl, rfl, rfl, ?_, ?_⟩
  · intro x hx
    simp [parse_label, hx]
  · intro x y q hx hq
    simp [parse_label, hx, hq]

/-- C6: `set_scheme` succeeds (returning the value unchanged, which becomes
the new scheme) exactly when the value has 4 elements, each consecutive pair
ascends by exactly 3, and every element lies in [1,12]; otherwise it fails
with the scheme-configuration error (so the active scheme is left
untouched). The spec's three examples are included. -/
theorem C6_set_scheme (v : List Int) :
    (set_scheme v = .ok v ↔
      v.length = 4 ∧ List.Chain' (fun a b => b = a + 3) v ∧
        ∀ x ∈ v, 1 ≤ x ∧ x ≤ 12) ∧
    (set_scheme v = .ok v ∨ set_scheme v = Except.error Err.config) ∧
    set_scheme [1, 4, 7, 10] = .ok [1, 4, 7, 10] ∧
    set_scheme [3, 6, 9, 13] = Except.error Err.config ∧
    set_scheme [3, 6, 10, 12] = Except.error Err.config := by
  refine ⟨?_, ?_, rfl, rfl, rfl⟩
  · simp only [set_scheme]
    split_ifs with h1 h2 h3
    · refine iff_of_false (by simp) ?_
      rintro ⟨hl, -, -⟩; exact h1 hl
    · simp only [Bool.not_eq_true'] at h2
      refine iff_of_false (by simp) ?_
      rintro ⟨-, hc, -⟩
      have := (zip_all_diff3_iff_chain v).mpr hc
      rw [h2] at this; cases this
    · simp only [Bool.not_eq_true'] at h3
      refine iff_of_false (by simp) ?_
      rintro ⟨-, -, hb⟩
      have : (v.all fun x => decide (1 ≤ x) && decide (x ≤ MONTHS_IN_YEAR)) = true := by
        rw [List.all_eq_true]
        intro x hx
        have hx2 := hb x hx
        simp only [Bool.and_eq_true, decide_eq_true_eq, MONTHS_IN_YEAR]
        exact hx2
      rw [h3] at this; cases this
    · have hl : v.length = 4 := by omega
      simp only [Bool.not_eq_true', Bool.not_eq_false] at h2 h3
      refine iff_of_true rfl ?_
      refine ⟨hl, (zip_all_diff3_iff_chain v).mp h2, ?_⟩
      intro x hx
      have := (List.all_eq_true.mp h3) x hx
      simp only [Bool.and_eq_true, decide_eq_true_eq, MONTHS_IN_YEAR] at this
      exact this
  · simp only [set_scheme]
    split_ifs <;> simp

/-- C8: `offset(periods)` rebuilds from the live zero-offset anchor
re-derived via `relative_offset` at call time, at the variant's increment.
For a MonthEnd (increment 1): the result is the month end
`relative_offset + periods` months from the live anchor, and consequently,
for a MonthEnd built from an explicit year and month, two sequential
`offset` calls made while the current instant (hence the live anchor) is
unchanged compose additively: `E.offset(a).offset(b) = E.offset(a+b)`.
For a QuarterEnd (increment 3, under any scheme accepted by `set_scheme`):
whenever the live anchor resolves and `relative_offset` succeeds with value
`rel` (its divmod-by-3 remainder is zero), `offset(periods)` succeeds and
returns the quarter end `(rel + periods) * 3` months from the live anchor —
equivalently `periods * 3` months from the receiver — whose month is again
in the scheme. -/
theorem C8_offset_compose (nowY nowM Y M a b : Int) (E : YM)
    (hE : mkMonthEnd Y M = .ok E) :
    (me_offset_method nowY nowM E a =
      monthEndFromOffset nowY nowM (relative_offset nowY nowM E + a)) ∧
    (me_offset_method nowY nowM (me_offset_method nowY nowM E a) b =
      me_offset_method nowY nowM E (a + b)) ∧
    (total_months (me_offset_method nowY nowM E a).1
        (me_offset_method nowY nowM E a).2 =
      total_months (monthEndFromOffset nowY nowM 0).1
          (monthEndFromOffset nowY nowM 0).2 +
        (relative_offset nowY nowM E + a) * 1) ∧
    (∀ (scheme : List Int) (Q A : YM) (rel : Int),
      set_scheme scheme = .ok scheme →
      quarterEndDefault scheme nowY nowM 0 = .ok A →
      qe_relative_offset scheme nowY nowM Q = .ok rel →
      ∃ R : YM, qe_offset_method scheme nowY nowM Q a = .ok R ∧
        total_months R.1 R.2 =
          total_months A.1 A.2 + (rel + a) * 3 ∧
        total_months R.1 R.2 = total_months Q.1 Q.2 + a * 3 ∧
        R.2 ∈ scheme) := by
  refine ⟨rfl, ?_, ?_, ?_⟩
  · simp only [me_offset_method, relative_offset_anchor]
    congr 1
    omega
  · simp only [me_offset_method, monthEndFromOffset]
    rw [me_offset_total, me_offset_total]
    simp only [total_months]
    omega
  · intro scheme Q A rel hs hA hrel
    have hd : (total_months Q.1 Q.2 - total_months A.1 A.2) % 3 = 0 ∧
        rel = (total_months Q.1 Q.2 - total_months A.1 A.2) / 3 := by
      have hrel2 := hrel
      simp only [qe_relative_offset, hA] at hrel2
      split at hrel2
      · rename_i hz
        injection hrel2 with h2
        exact ⟨hz, h2.symm⟩
      · cases hrel2
    obtain ⟨R, hR, htot, hmem⟩ :=
      quarterEndDefault_ok_total scheme nowY nowM (rel + a) hs A hA
    refine ⟨R, ?_, by omega, by omega, hmem⟩
    simp only [qe_offset_method, hrel, hR]

/-- C8 witness: `MonthEnd(year=2025, month=6)` with current instant in March
2026; `offset(2).offset(-5)` and `offset(-3)` agree (both give March 2025),
and the result of `offset(2)` is `relative_offset + 2` months from the live
anchor February 2026. For the quarter case under the default scheme, the
live anchor is December 2025, the quarter end (2025, 6) has relative offset
-2, and `offset(2)` lands back on the anchor (2025, 12). -/
theorem C8_offset_compose_witness :
    (me_offset_method 2026 3 (me_offset_method 2026 3 (2025, 6) 2) (-5) =
      me_offset_method 2026 3 (2025, 6) (-3) ∧
    me_offset_method 2026 3 (2025, 6) (-3) = (2025, 3)) ∧
    (∃ R : YM, qe_offset_method defaultScheme 2026 3 (2025, 6) 2 = .ok R ∧
      total_months R.1 R.2 =
        total_months (2025, 12).1 (2025, 12).2 + (-2 + 2) * 3 ∧
      total_months R.1 R.2 = total_months (2025, 6).1 (2025, 6).2 + 2 * 3 ∧
      R.2 ∈ defaultScheme) :=
  ⟨⟨(C8_offset_compose 2026 3 2025 6 2 (-5) (2025, 6) (by decide)).2.1,
    by decide⟩,
   (C8_offset_compose 2026 3 2025 6 2 (-5) (2025, 6) (by decide)).2.2.2
     defaultScheme (2025, 6) (2025, 12) (-2) (by decide) (by decide)
     (by decide)⟩


theorem dtLe_time_iff (y mo d h1 mi1 s1 u1 h2 mi2 s2 u2 : Int)
    (hb : 0 ≤ mi1 ∧ mi1 < 60 ∧ 0 ≤ s1 ∧ s1 < 60 ∧ 0 ≤ u1 ∧ u1 < 1000000 ∧
          0 ≤ mi2 ∧ mi2 < 60 ∧ 0 ≤ s2 ∧ s2 < 60 ∧ 0 ≤ u2 ∧ u2 < 1000000) :
    dtLe ⟨y, mo, d, h1, mi1, s1, u1⟩ ⟨y, mo, d, h2, mi2, s2, u2⟩ = true ↔
      ((h1 * 60 + mi1) * 60 + s1) * 1000000 + u1 ≤
        ((h2 * 60 + mi2) * 60 + s2) * 1000000 + u2 := by
  obtain ⟨b1, b2, b3, b4, b5, b6, b7, b8, b9, b10, b11, b12⟩ := hb
  simp only [dtLe, dtLt, bne_iff_ne, Bool.or_eq_true, beq_iff_eq,
    decide_eq_true_eq, DateTime.mk.injEq]
  split_ifs <;> simp only [decide_eq_true_eq, true_and] <;> omega

theorem bizLoop_reach (H : HolidaySet) (dir : Int) (target : Nat) :
    ∀ fuel counter t r, counter ≤ target →
      bizLoop H dir target fuel counter t = some r →
      BizReach H dir (target - counter) t r := by
  intro fuel
  induction fuel with
  | zero =>
    intro counter t r hle h
    simp only [bizLoop] at h
    split at h
    · cases h
    · rename_i hc
      have he : counter = target := by omega
      subst he
      cases h
      simpa using BizReach.done t
  | succ fuel ih =>
    intro counter t r hle h
    simp only [bizLoop] at h
    split at h
    · rename_i hc
      by_cases hbz : is_business_day H (stepDays dir t) = true
      · rw [if_pos hbz] at h
        have hr := ih (counter + 1) (stepDays dir t) r (by omega) h
        have he : target - counter = (target - (counter + 1)) + 1 := by omega
        rw [he]
        exact BizReach.count hbz hr
      · rw [if_neg hbz] at h
        have hr := ih counter (stepDays dir t) r hle h
        exact BizReach.skip (by omega) (by simpa using hbz) hr
    · rename_i hc
      have he : counter = target := by omega
      subst he
      cases h
      simpa using BizReach.done t

theorem bizLoop_business (H : HolidaySet) (dir : Int) (target : Nat) :
    ∀ fuel counter t r, counter < target →
      bizLoop H dir target fuel counter t = some r →
      is_business_day H r = true := by
  intro fuel
  induction fuel with
  | zero =>
    intro c t r hc h
    simp only [bizLoop, if_pos hc] at h
    cases h
  | succ fuel ih =>
    intro c t r hc h
    simp only [bizLoop] at h
    rw [if_pos hc] at h
    by_cases hbz : is_business_day H (stepDays dir t) = true
    · rw [if_pos hbz] at h
      by_cases hlt : c + 1 < target
      · exact ih (c + 1) _ r hlt h
      · have hstop : bizLoop H dir target fuel (c + 1) (stepDays dir t) =
            some (stepDays dir t) := by
          cases fuel <;> simp [bizLoop, hlt]
        rw [hstop] at h
        injection h with h2
        rw [← h2]
        exact hbz
    · rw [if_neg hbz] at h
      exact ih c _ r hc h



/-- C4: `shift(biz_days=N)` refines the step-and-count relation `BizReach`:
whenever the loop terminates it has stepped one calendar day at a time in
direction `sign(N)`, counting exactly the business-day landings, and stopped
at the `|N|`-th counted landing; `biz_days=0` is a no-op returning a value
equal to the receiver; and from 2029-12-31 (the business day immediately
preceding the lone holiday 2030-01-01, in a Monday–Friday window with no
weekend day), `shift(biz_days=+3)` skips the holiday and lands on
2030-01-04, exactly 3 business days later. -/
theorem C4_biz_days_shift :
    (∀ (H : HolidaySet) (fuel : Nat) (t : DateTime) (N : Int) (r : DateTime),
        shift_biz_days H fuel N t = some r →
        BizReach H N.sign N.natAbs t r) ∧
    (∀ (H : HolidaySet) (fuel : Nat) (t : DateTime),
        shift_biz_days H fuel 0 t = some t) ∧
    shift_biz_days holidayNewYear2030 10 3 (mkDate 2029 12 31) =
      some (mkDate 2030 1 4) ∧
    is_business_day holidayNewYear2030 (mkDate 2029 12 31) = true ∧
    is_holiday holidayNewYear2030 (mkDate 2030 1 1) = true ∧
    c4Window.all (fun d => !is_weekend d) = true ∧
    c4Window.countP (fun d => is_holiday holidayNewYear2030 d) = 1 := by
  refine ⟨?_, ?_, by decide, by decide, by decide, by decide, by decide⟩
  · intro H fuel t N r h
    simpa using bizLoop_reach H N.sign N.natAbs fuel 0 t r (Nat.zero_le _) h
  · intro H fuel t
    cases fuel <;> simp [shift_biz_days, bizLoop]

/-- C4 witness: the loop equation at the concrete holiday instance yields
the `BizReach` relation at 3 counted business-day steps. -/
theorem C4_biz_days_shift_witness :
    BizReach holidayNewYear2030 (Int.sign 3) (Int.natAbs 3)
      (mkDate 2029 12 31) (mkDate 2030 1 4) :=
  C4_biz_days_shift.1 holidayNewYear2030 10 (mkDate 2029 12 31) 3
    (mkDate 2030 1 4) (by decide)

/-- C10: for nonzero `N`, whenever `shift(biz_days=N)` terminates, the value
it returns is itself a business day: the loop only stops on a step whose
landing day was counted, and only business-day landings are counted. -/
theorem C10_biz_shift_lands_on_business_day (H : HolidaySet) (fuel : Nat)
    (t : DateTime) (N : Int) (r : DateTime) (hN : N ≠ 0)
    (h : shift_biz_days H fuel N t = some r) :
    is_business_day H r = true := by
  refine bizLoop_business H N.sign N.natAbs fuel 0 t r ?_ h
  have hna : N.natAbs ≠ 0 := Int.natAbs_ne_zero.mpr hN
  omega

/-- C10 witness: the concrete 3-business-day shift of C4 lands on
2030-01-04, a business day. -/
theorem C10_biz_shift_witness :
    is_business_day holidayNewYear2030 (mkDate 2030 1 4) = true :=
  C10_biz_shift_lands_on_business_day holidayNewYear2030 10
    (mkDate 2029 12 31) 3 (mkDate 2030 1 4) (by decide) (by decide)

/-- C3 counterexample: the claim says a weekday-name string resolves through
the weekday stage even when a `format` argument is supplied. In the code an
explicit format short-circuits to `strptime` before any label stage; with a
format that rejects `"Monday"` (as `%Y%m%d` does in Python) construction
fails even though the weekday stage matches and would have produced the
Monday of the current week. -/
theorem C3_counterexample :
    to_datetime_str (fun _ _ => .error .parse) (fun _ => .error .parse)
        defaultScheme (mkDate 2025 10 12) "Monday" (some "%Y%m%d") 0 =
      Except.error Err.parse ∧
    try_weekday (mkDate 2025 10 12) "Monday" 0 = some (mkDate 2025 10 6) := by
  exact ⟨rfl, by decide⟩

/-- C3 (amended): the string resolution stages are attempted in the order:
explicit caller-supplied format (exclusively — when a format is given the
result is `strptime`'s, and the weekday / quarter-label stages are never
consulted); otherwise weekday name, then quarter-end label, then general
date/time text parsing, first match winning. -/
theorem C3_resolution_order (st : String → String → Except Err DateTime)
    (dp : String → Except Err DateTime) (scheme : List Int) (now : DateTime)
    (arg f : String) (offset : Int) :
    to_datetime_str st dp scheme now arg (some f) offset = st arg f ∧
    (∀ d, try_weekday now arg offset = some d →
      to_datetime_str st dp scheme now arg none offset = .ok d) ∧
    (∀ d, try_weekday now arg offset = none →
      try_quarter_end scheme now.year arg offset = .ok (some d) →
      to_datetime_str st dp scheme now arg none offset = .ok d) ∧
    (try_weekday now arg offset = none →
      try_quarter_end scheme now.year arg offset = .ok none →
      to_datetime_str st dp scheme now arg none offset = dp arg) := by
  refine ⟨rfl, ?_, ?_, ?_⟩
  · intro d hd
    simp [to_datetime_str, hd]
  · intro d hw hq
    simp [to_datetime_str, hw, hq]
  · intro hw hq
    simp [to_datetime_str, hw, hq]

/-- C3 witness: with no format given, the weekday stage resolves `"Friday"`
from a Sunday 2025-10-12 to the Friday of the current Monday-started week. -/
theorem C3_resolution_order_witness :
    to_datetime_str (fun _ _ => Except.error Err.parse)
        (fun _ => Except.error Err.parse) defaultScheme (mkDate 2025 10 12)
        "Friday" none 0 = .ok (mkDate 2025 10 10) :=
  (C3_resolution_order (fun _ _ => Except.error Err.parse)
      (fun _ => Except.error Err.parse) defaultScheme (mkDate 2025 10 12)
      "Friday" "x" 0).2.1 (mkDate 2025 10 10) (by decide)



/-- C7: strict period-end conversion fails with the alignment error exactly
when the receiver is off the respective boundary, and otherwise returns the
period end of the receiver's year and month; non-strict month conversion
coerces any value to its containing month's end; non-strict quarter
conversion always fails with the not-supported error, before any boundary
check. -/
theorem C7_to_period_end (scheme : List Int) (t : DateTime) (hv : t.Valid) :
    (to_month_end true t = Except.error Err.alignment ↔ is_month_end t = false) ∧
    (is_month_end t = true → to_month_end true t = .ok (t.year, t.month)) ∧
    to_month_end false t = .ok (t.year, t.month) ∧
    to_quarter_end scheme false t = Except.error Err.notSupported ∧
    (to_quarter_end scheme true t = Except.error Err.alignment ↔
      is_quarter_end scheme t = false) ∧
    (is_quarter_end scheme t = true →
      to_quarter_end scheme true t = .ok (t.year, t.month)) := by
  obtain ⟨hy, hm1, hm2, hrest⟩ := hv
  have hok : mkMonthEnd t.year t.month = .ok (t.year, t.month) := by
    simp [mkMonthEnd, validate_month, MONTHS_IN_YEAR, hm1, hm2,
      me_offset_zero t.year t.month hm1 hm2]
  have hqok : is_quarter_end scheme t = true →
      mkQuarterEnd scheme t.year t.month = .ok (t.year, t.month) := by
    intro hq
    have hmem : t.month ∈ scheme := by
      simp only [is_quarter_end, Bool.and_eq_true, decide_eq_true_eq] at hq
      exact hq.2
    simp [mkQuarterEnd, validate_month, MONTHS_IN_YEAR, hm1, hm2, qe_offset,
      show (24 : Nat) = 23 + 1 from rfl, backtrack_noop scheme 23 _ _ hmem,
      me_offset_zero t.year t.month hm1 hm2, hmem]
  refine ⟨?_, ?_, ?_, rfl, ?_, ?_⟩
  · by_cases hme : is_month_end t = true
    · simp [to_month_end, hme, hok]
    · have hf : is_month_end t = false := by simpa using hme
      simp [to_month_end, hf]
  · intro hme
    simp [to_month_end, hme, hok]
  · simp [to_month_end, hok]
  · by_cases hqe : is_quarter_end scheme t = true
    · simp [to_quarter_end, hqe, hqok hqe]
    · have hf : is_quarter_end scheme t = false := by simpa using hqe
      simp [to_quarter_end, hf]
  · intro hqe
    simp [to_quarter_end, hqe, hqok hqe]

/-- C7 witness: 2025-06-30 (a quarter end under the default scheme) converts
strictly to quarter end (2025, 6) and fails non-strictly; an off-boundary
value 2025-06-12 05:04:03 coerces non-strictly to its month end. -/
theorem C7_to_period_end_witness :
    to_quarter_end defaultScheme true (mkDate 2025 6 30) = .ok (2025, 6) ∧
    to_quarter_end defaultScheme false (mkDate 2025 6 30) =
      Except.error Err.notSupported ∧
    to_month_end false ⟨2025, 6, 12, 5, 4, 3, 0⟩ = .ok (2025, 6) ∧
    to_month_end true ⟨2025, 6, 12, 5, 4, 3, 0⟩ =
      Except.error Err.alignment :=
  ⟨(C7_to_period_end defaultScheme (mkDate 2025 6 30) (by decide)).2.2.2.2.2
      (by decide),
   (C7_to_period_end defaultScheme (mkDate 2025 6 30) (by decide)).2.2.2.1,
   (C7_to_period_end defaultScheme ⟨2025, 6, 12, 5, 4, 3, 0⟩ (by decide)).2.2.1,
   ((C7_to_period_end defaultScheme ⟨2025, 6, 12, 5, 4, 3, 0⟩ (by decide)).1).mpr
      (by decide)⟩

/-- C9: `is_business_hours` holds exactly when the value is a business day
and its time-of-day lies in the configured window with both bounds
inclusive, and the configured default window is (8, 17), i.e. 08:00–17:00. -/
theorem C9_business_hours (bh : Int × Int) (H : HolidaySet) (t : DateTime)
    (hv : t.Valid) :
    (is_business_hours bh H t = true ↔
      (is_business_day H t = true ∧
        bh.1 * 3600000000 ≤ timeOfDay t ∧
        timeOfDay t ≤ bh.2 * 3600000000)) ∧
    business_hours = (8, 17) := by
  refine ⟨?_, rfl⟩
  obtain ⟨y, mo, d, h, mi, s, u⟩ := t
  obtain ⟨-, -, -, -, -, hh0, hh, hmi0, hmi, hs0, hs, hu0, hu⟩ := hv
  by_cases hbd : is_business_day H ⟨y, mo, d, h, mi, s, u⟩ = true
  · have e1 := dtLe_time_iff y mo d bh.1 0 0 0 h mi s u
      ⟨by omega, by omega, by omega, by omega, by omega, by omega,
       hmi0, hmi, hs0, hs, hu0, hu⟩
    have e2 := dtLe_time_iff y mo d h mi s u bh.2 0 0 0
      ⟨hmi0, hmi, hs0, hs, hu0, hu,
       by omega, by omega, by omega, by omega, by omega, by omega⟩
    simp only [is_business_hours, hbd, Bool.not_true, Bool.false_eq_true,
      if_false, Bool.and_eq_true, e1, e2, timeOfDay, true_and]
    constructor
    · rintro ⟨a1, a2⟩; exact ⟨by omega, by omega⟩
    · rintro ⟨a1, a2⟩; exact ⟨by omega, by omega⟩
  · have hbf : is_business_day H ⟨y, mo, d, h, mi, s, u⟩ = false := by
      simpa using hbd
    simp [is_business_hours, hbf]

/-- C9 witness: Wednesday 2025-10-08 17:00:00 (no holidays) is within
business hours under the default window; 17:00:00.000001 is not. -/
theorem C9_business_hours_witness :
    is_business_hours business_hours (fun _ => false)
      ⟨2025, 10, 8, 17, 0, 0, 0⟩ = true ∧
    is_business_hours business_hours (fun _ => false)
      ⟨2025, 10, 8, 17, 0, 0, 1⟩ = false :=
  ⟨((C9_business_hours business_hours (fun _ => false)
      ⟨2025, 10, 8, 17, 0, 0, 0⟩ (by decide)).1).mpr
      ⟨by decide, by decide, by decide⟩,
   by
    have hiff := (C9_business_hours business_hours (fun _ => false)
      ⟨2025, 10, 8, 17, 0, 0, 1⟩ (by decide)).1
    by_contra hx
    have := hiff.mp (by simpa using hx)
    revert this
    decide⟩



/-- C2 witness: the variant-demotion equations of the amended claim at a
concrete quarter-end value and one-day delta. -/
theorem C2_shift_returns_base_witness :
    (shift_days ⟨Variant.quarterEnd, mkDate 2025 6 30⟩ 1).variant =
      Variant.base :=
  (C2_shift_returns_base ⟨Variant.quarterEnd, mkDate 2025 6 30⟩ 1).1

/-- C5 witness: the explicit-year label example evaluated at the concrete
current year 2025. -/
theorem C5_parse_label_witness :
    parse_label 2025 "2025Q1" = .ok (some (2025, 1)) :=
  (C5_parse_label 2025).1

/-- C6 witness: the spec's accepted scheme evaluated concretely. -/
theorem C6_set_scheme_witness :
    set_scheme [1, 4, 7, 10] = .ok [1, 4, 7, 10] :=
  (C6_set_scheme [1, 4, 7, 10]).2.2.1


end Clockwork
